import Mathlib

/-!
Verification of the environment-flattening, archive-packaging and backend-dispatch
logic of the dbt-fal experimental adapter
(src/projects/adapter/src/dbt/adapters/fal_experimental/adapter.py).

The Python code is shallowly embedded: dictionaries become structures with
optional fields, Python truthiness of optional lists is made explicit, the
flattening in run_in_koldstart becomes a fold over the layer stack, the zip
pack/unpack becomes path-relativisation over a list-of-files model of the
filesystem, and run_in_environment_with_adapter becomes a function producing
the ordered trace of observable effects.
-/

namespace DbtFal

/-- One entry of a layer's `configuration` dictionary.  In the Python source a
configuration is a dict that may or may not carry the keys `requirements` and
`packages`; an absent key is modelled as `none`. -/
structure LayerConfig where
  requirements : Option (List String) := none
  packages : Option (List String) := none
  deriving Repr, DecidableEq

/-- One layered environment specification, as stored in
`environment.target_environments`: a dict with a `kind` tag and an optional
`configuration` sub-dict. -/
structure Layer where
  kind : String
  configuration : Option LayerConfig := none
  deriving Repr, DecidableEq

/-- Python truthiness of `dict.get(key)` applied to an optional list: an absent
key (`None`) and an empty list are both falsy; a non-empty list is truthy. -/
def truthy : Option (List String) → Bool
  | none => false
  | some xs => !xs.isEmpty

/-- The `env.get("configuration", {})` access of the source. -/
def Layer.config (l : Layer) : LayerConfig :=
  l.configuration.getD {}

/-- The requirement list a layer carries, an empty list when the key or the
whole configuration is absent. -/
def Layer.reqList (l : Layer) : List String :=
  l.config.requirements.getD []

/-- The package list a layer carries, an empty list when the key or the whole
configuration is absent. -/
def Layer.pkgList (l : Layer) : List String :=
  l.config.packages.getD []

/-- A conda dependency entry: either a plain package string or a nested
`{"pip": [...]}` dictionary. -/
inductive CondaDep where
  | pkg (s : String)
  | pip (reqs : List String)
  deriving Repr, DecidableEq

/-- The conda environment dictionary built by the conda branch of
`run_in_koldstart`. -/
structure CondaEnvDict where
  name : String
  channels : List String
  dependencies : List CondaDep
  deriving Repr, DecidableEq

/-- The fixed skeleton the conda branch starts from. -/
def condaSkeleton : CondaEnvDict :=
  { name := "dbt_fal_env"
    channels := ["conda-forge", "defaults"]
    dependencies := [] }

/-- The virtualenv branch of `run_in_koldstart`: fold over the stack, appending
each layer's requirement list whenever the dict lookup is truthy. -/
def flattenVirtualenv (stack : List Layer) : List String :=
  stack.foldl
    (fun requirements env =>
      if truthy env.config.requirements then requirements ++ env.reqList
      else requirements)
    []

/-- One step of the conda branch of `run_in_koldstart`: append the layer's
packages when truthy, then append one nested pip entry when the layer's
requirements are truthy. -/
def condaStep (d : CondaEnvDict) (env : Layer) : CondaEnvDict :=
  let d1 :=
    if truthy env.config.packages then
      { d with dependencies := d.dependencies ++ env.pkgList.map CondaDep.pkg }
    else d
  if truthy env.config.requirements then
    { d1 with dependencies := d1.dependencies ++ [CondaDep.pip env.reqList] }
  else d1

/-- The conda branch of `run_in_koldstart`: fold `condaStep` over the stack
starting from the fixed skeleton. -/
def flattenConda (stack : List Layer) : CondaEnvDict :=
  stack.foldl condaStep condaSkeleton

/-- The single flat environment specification shipped to the koldstart API. -/
inductive FlatEnvironmentSpec where
  | virtualenv (requirements : List String)
  | conda (envDict : CondaEnvDict)
  deriving Repr, DecidableEq

/-- The failure of the final `else` branch of `run_in_koldstart`
("Environment type not supported"). -/
inductive FlattenError where
  | unsupportedEnvironmentKind (kind : String)
  deriving Repr, DecidableEq

/-- The kind dispatch of `run_in_koldstart`: branch on
`environment.target_env_type`, never on the layers' own `kind` tags. -/
def flatten (targetEnvType : String) (stack : List Layer) :
    Except FlattenError FlatEnvironmentSpec :=
  if targetEnvType = "virtualenv" then
    .ok (.virtualenv (flattenVirtualenv stack))
  else if targetEnvType = "conda" then
    .ok (.conda (flattenConda stack))
  else
    .error (.unsupportedEnvironmentKind targetEnvType)

/-! ### Archive packaging (zipfile usage in the adapter)

The packaging loop of `run_in_environment_with_adapter` walks
`fal_scripts_path.rglob("*")` and stores every entry under its path relative to
the packaged root; `_isolated_runner` asserts that the destination does not
exist, creates the parents and extracts every entry beneath the destination.
The filesystem is modelled as a list of (absolute path, byte content) pairs,
directories being implicit. -/

/-- An absolute or relative filesystem path, as a list of components. -/
abbrev FsPath := List String

/-- A filesystem: the files it holds, each an absolute path with byte
contents.  Directories exist implicitly as prefixes of file paths. -/
abbrev FileSystem := List (FsPath × List Nat)

/-- An in-memory archive: entries with paths relative to the packaged root. -/
abbrev Archive := List (FsPath × List Nat)

/-- Whether `p` lies strictly below the directory `root` (it is what
`root.rglob("*")` enumerates and what `entry.relative_to(root)` accepts). -/
def underRoot (root p : FsPath) : Bool :=
  root.isPrefixOf p && decide (root.length < p.length)

/-- `pack`: the zip-writing loop of `run_in_environment_with_adapter`; every
file below `root` is stored under its path relative to `root`. -/
def pack (root : FsPath) (fs : FileSystem) : Archive :=
  fs.filterMap fun e =>
    if underRoot root e.1 then some (e.1.drop root.length, e.2) else none

/-- `dest.exists()` in the model: some file is `dest` itself or lies below it
(a directory exists when it is inhabited). -/
def pathExists (fs : FileSystem) (dest : FsPath) : Bool :=
  fs.any fun e => dest.isPrefixOf e.1

/-- The failure of the `assert not fal_scripts_path.exists()` guard of
`_isolated_runner`. -/
inductive UnpackError where
  | destinationExists
  deriving Repr, DecidableEq

/-- `unpack`: the extraction step of `_isolated_runner` — fail when the
destination already exists, otherwise materialise every archive entry beneath
the destination (parents arise implicitly). -/
def unpack (archive : Archive) (fs : FileSystem) (dest : FsPath) :
    Except UnpackError FileSystem :=
  if pathExists fs dest then .error .destinationExists
  else .ok (fs ++ archive.map fun e => (dest ++ e.1, e.2))

/-! ### Backend dispatch (`run_in_environment_with_adapter`)

The dispatcher is modelled as a function from its observable inputs to the
ordered trace of the effects it performs. -/

/-- The runtime type of the environment handle, as tested by
`type(environment) in [IsolateServer, KoldstartDummyServer]`. -/
inductive EnvHandleType where
  | isolateServer
  | koldstartDummyServer
  | other
  deriving Repr, DecidableEq

/-- The observable effects of one dispatcher invocation, in order. -/
inductive Event where
  /-- the `raise RuntimeError(...)` for the unsupported BigQuery method -/
  | raiseConfigError (msg : String)
  /-- `environment.target_environments.append(extra_config)` -/
  | appendLayer (l : Layer)
  /-- `environment.create()` (or the local-branch environment creation) -/
  | create
  /-- zipping `fal_scripts_path` into `compressed_local_packages` -/
  | packScripts
  /-- `environment.open_connection(key)` / opening the local `PythonIPC` -/
  | openConnection
  /-- submitting the execution request with the given optional archive -/
  | submit (localPackages : Option Archive)
  /-- handing off to `run_in_koldstart` with the given optional archive -/
  | koldstartRun (localPackages : Option Archive)
  deriving Repr, DecidableEq

/-- The inputs `run_in_environment_with_adapter` branches on. -/
structure DispatcherInput where
  envType : EnvHandleType
  credentialsTypeName : String
  credentialsMethod : String
  falScriptsPathExists : Bool
  /-- `get_default_pip_dependencies(is_remote=True, adapter_type=...)` -/
  remoteDeps : List String
  /-- the archive produced when `fal_scripts_path` exists -/
  packedArchive : Archive
  deriving Repr

/-- The error message of the BigQuery `service-account` configuration error. -/
def bigQueryServiceAccountMsg : String :=
  "BigQuery credential method `service-account` is not supported. Please use `service-account-json` instead"

/-- The remote-branch layer appended before provisioning:
`{'kind': 'virtualenv', 'configuration': {'requirements': deps}}`. -/
def extraConfig (deps : List String) : Layer :=
  { kind := "virtualenv", configuration := some { requirements := some deps } }

/-- The effect trace of `run_in_environment_with_adapter`.  The remote branch
checks the BigQuery credential method first, then appends the default-deps
layer, provisions the connection, packs the scripts directory when it exists,
and either hands off to `run_in_koldstart` or submits over an open connection;
the local branch provisions and submits with `local_packages` left at its
`None` default. -/
def run_in_environment_with_adapter (inp : DispatcherInput) : List Event :=
  if inp.envType = .isolateServer ∨ inp.envType = .koldstartDummyServer then
    if inp.credentialsTypeName = "BigQueryCredentials" ∧
        inp.credentialsMethod = "service-account" then
      [.raiseConfigError bigQueryServiceAccountMsg]
    else
      let localPackages : Option Archive :=
        if inp.falScriptsPathExists then some inp.packedArchive else none
      [.appendLayer (extraConfig inp.remoteDeps), .create]
        ++ (if inp.falScriptsPathExists then [.packScripts] else [])
        ++ (if inp.envType = .koldstartDummyServer then
              [.koldstartRun localPackages]
            else
              [.openConnection, .submit localPackages])
  else
    [.create, .openConnection, .submit none]

/-! ### Spec-side characterisations

These definitions follow the wording of the specification; the theorems below
compare them with the fold-based definitions extracted from the source. -/

/-- Spec wording for the virtualenv flattening: the concatenation, in
encounter order, of every layer's requirement list. -/
def virtualenvReqsSpec (stack : List Layer) : List String :=
  (stack.map Layer.reqList).flatten

/-- Spec wording for one layer's contribution to the conda dependency list:
its declared packages in order, then one nested pip entry when it declares a
(non-empty) pip requirement list. -/
def layerCondaDepsSpec (l : Layer) : List CondaDep :=
  l.pkgList.map CondaDep.pkg ++
    (if l.reqList = [] then [] else [CondaDep.pip l.reqList])

/-! ### Fold characterisation lemmas -/

theorem virtualenvStep_eq (acc : List String) (l : Layer) :
    (if truthy l.config.requirements then acc ++ l.reqList else acc) =
      acc ++ l.reqList := by
  unfold Layer.reqList
  cases h : l.config.requirements with
  | none => simp [truthy, h]
  | some rs => cases rs <;> simp [truthy, h]

theorem flattenVirtualenv_foldl (stack : List Layer) (acc : List String) :
    stack.foldl
      (fun requirements env =>
        if truthy env.config.requirements then requirements ++ env.reqList
        else requirements)
      acc = acc ++ virtualenvReqsSpec stack := by
  induction stack generalizing acc with
  | nil => simp [virtualenvReqsSpec]
  | cons l ls ih =>
    simp only [List.foldl_cons]
    rw [virtualenvStep_eq acc l, ih]
    simp [virtualenvReqsSpec, List.append_assoc]

theorem flattenVirtualenv_eq (stack : List Layer) :
    flattenVirtualenv stack = virtualenvReqsSpec stack := by
  simpa using flattenVirtualenv_foldl stack []

theorem condaStep_eq (d : CondaEnvDict) (l : Layer) :
    condaStep d l =
      { d with dependencies := d.dependencies ++ layerCondaDepsSpec l } := by
  unfold condaStep layerCondaDepsSpec Layer.pkgList Layer.reqList
  cases hp : l.config.packages with
  | none =>
    cases hr : l.config.requirements with
    | none => simp [truthy, hp, hr]
    | some rs => cases rs <;> simp [truthy, hp, hr]
  | some ps =>
    cases hr : l.config.requirements with
    | none => cases ps <;> simp [truthy, hp, hr]
    | some rs => cases ps <;> cases rs <;> simp [truthy, hp, hr]

theorem flattenConda_foldl (stack : List Layer) (d : CondaEnvDict) :
    stack.foldl condaStep d =
      { d with dependencies :=
          d.dependencies ++ (stack.map layerCondaDepsSpec).flatten } := by
  induction stack generalizing d with
  | nil => simp
  | cons l ls ih =>
    simp only [List.foldl_cons, condaStep_eq, ih, List.map_cons,
      List.flatten_cons, List.append_assoc]

theorem flattenConda_eq (stack : List Layer) :
    flattenConda stack =
      { condaSkeleton with
          dependencies := (stack.map layerCondaDepsSpec).flatten } := by
  simpa [flattenConda] using flattenConda_foldl stack condaSkeleton

/-! ### Archive lemmas -/

theorem isPrefixOf_append_self (l m : List String) :
    l.isPrefixOf (l ++ m) = true := by
  induction l with
  | nil => simp [List.isPrefixOf]
  | cons a as ih => simp [List.isPrefixOf, ih]

theorem pack_append (root : FsPath) (l1 l2 : FileSystem) :
    pack root (l1 ++ l2) = pack root l1 ++ pack root l2 := by
  simp [pack, List.filterMap_append]

theorem pack_of_fresh (dest : FsPath) (target : FileSystem)
    (h : pathExists target dest = false) :
    pack dest target = [] := by
  rw [pathExists, List.any_eq_false] at h
  rw [pack, List.filterMap_eq_nil_iff]
  intro a ha
  have hp : dest.isPrefixOf a.1 = false := Bool.eq_false_iff.mpr (h a ha)
  simp [underRoot, hp]

theorem pack_entry_len (root : FsPath) (fs : FileSystem)
    (e : FsPath × List Nat) (he : e ∈ pack root fs) : 0 < e.1.length := by
  rw [pack, List.mem_filterMap] at he
  obtain ⟨a, _, hfa⟩ := he
  by_cases hu : underRoot root a.1 = true
  · rw [if_pos hu] at hfa
    injection hfa with hfa
    subst hfa
    have hlen : root.length < a.1.length :=
      of_decide_eq_true (Bool.and_elim_right hu)
    simp only [List.length_drop]
    omega
  · rw [if_neg hu] at hfa
    cases hfa

theorem pack_map_rebase (dest : FsPath) (archive : Archive)
    (h : ∀ e ∈ archive, 0 < e.1.length) :
    pack dest (archive.map fun e => (dest ++ e.1, e.2)) = archive := by
  induction archive with
  | nil => rfl
  | cons a as ih =>
    have h1 : underRoot dest (dest ++ a.1) = true := by
      have ha : 0 < a.1.length := h a (List.mem_cons_self a as)
      simp [underRoot, isPrefixOf_append_self, List.length_append]
      omega
    have := ih fun e he => h e (List.mem_cons_of_mem a he)
    simpa [pack, List.filterMap_cons, h1, List.drop_left] using this

/-! ### Claim theorems -/

/-- C1: for every layer stack flattened under a handle whose target kind is
virtualenv, the flattened requirements list equals the concatenation, in
encounter order, of every layer's requirement list, duplicates kept; in
particular the stack [virtualenv ["pandas"], virtualenv ["numpy", "pandas"]]
flattens to ["pandas", "numpy", "pandas"]. -/
theorem spec_c1 :
    (∀ stack : List Layer,
      flatten "virtualenv" stack =
        .ok (.virtualenv (virtualenvReqsSpec stack))) ∧
    flatten "virtualenv"
      [{ kind := "virtualenv",
         configuration := some { requirements := some ["pandas"] } },
       { kind := "virtualenv",
         configuration := some { requirements := some ["numpy", "pandas"] } }] =
      .ok (.virtualenv ["pandas", "numpy", "pandas"]) := by
  constructor
  · intro stack
    simp [flatten, flattenVirtualenv_eq]
  · rfl

/-- C2: for every layer stack flattened under a handle whose target kind is
conda, the result starts from the fixed skeleton (name "dbt_fal_env",
channels ["conda-forge", "defaults"], empty dependencies); each layer in order
appends its declared packages and, when it declares (non-empty) pip
requirements, one nested pip entry per layer; in particular
[conda packages ["python=3.9"] requirements ["scikit-learn"],
 conda packages ["numpy"]] flattens to dependencies
[pkg "python=3.9", pip ["scikit-learn"], pkg "numpy"]. -/
theorem spec_c2 :
    (∀ stack : List Layer,
      flatten "conda" stack =
        .ok (.conda
          { name := "dbt_fal_env"
            channels := ["conda-forge", "defaults"]
            dependencies := (stack.map layerCondaDepsSpec).flatten })) ∧
    flatten "conda"
      [{ kind := "conda",
         configuration := some { requirements := some ["scikit-learn"],
                                 packages := some ["python=3.9"] } },
       { kind := "conda",
         configuration := some { packages := some ["numpy"] } }] =
      .ok (.conda
        { name := "dbt_fal_env"
          channels := ["conda-forge", "defaults"]
          dependencies := [.pkg "python=3.9", .pip ["scikit-learn"],
                           .pkg "numpy"] }) := by
  constructor
  · intro stack
    simp [flatten, flattenConda_eq, condaSkeleton]
  · rfl

/-- C3 counterexample: a stack containing a layer whose kind tag "mamba" is
unrecognized flattens without any error when the handle's target environment
type is virtualenv — the layer kind tags in the stack are never inspected, so
the claimed failure does not occur for this input. -/
theorem spec_c3_counterexample :
    flatten "virtualenv"
      [{ kind := "mamba",
         configuration := some { requirements := some ["x"] } },
       { kind := "virtualenv",
         configuration := some { requirements := some ["y"] } }] =
      .ok (.virtualenv ["x", "y"]) := by
  rfl

/-- C3 (amended): flattening fails with the unsupported-environment-kind
error exactly when the handle's target environment type is neither
"virtualenv" nor "conda", for every stack, regardless of the stack's layer
contents and their kind tags. -/
theorem spec_c3 (target : String) (stack : List Layer)
    (h1 : target ≠ "virtualenv") (h2 : target ≠ "conda") :
    flatten target stack = .error (.unsupportedEnvironmentKind target) := by
  simp [flatten, h1, h2]

/-- C3 witness: the amended theorem applied at the unrecognized target kind
"mamba" with a non-empty stack. -/
theorem spec_c3_witness :
    flatten "mamba" [{ kind := "mamba" }] =
      .error (.unsupportedEnvironmentKind "mamba") :=
  spec_c3 "mamba" [{ kind := "mamba" }] (by decide) (by decide)

/-- C4: packing a directory tree (paths stored relative to the packaged root)
and unpacking the archive into a fresh, non-existent destination reproduces an
identical relative file set with identical byte contents: relativising the
unpacked result at the destination gives back exactly the packed archive. -/
theorem spec_c4 (root dest : FsPath) (fs target : FileSystem)
    (h : pathExists target dest = false) :
    ∃ fs2, unpack (pack root fs) target dest = .ok fs2 ∧
      pack dest fs2 = pack root fs := by
  refine ⟨target ++ (pack root fs).map fun e => (dest ++ e.1, e.2), ?_, ?_⟩
  · simp [unpack, h]
  · rw [pack_append, pack_of_fresh dest target h, List.nil_append,
      pack_map_rebase dest (pack root fs) (pack_entry_len root fs)]

/-- C4 witness: a concrete round trip for the tree holding "r/a" with bytes
[7] (and a file "b" outside the packaged root) unpacked at "dst". -/
theorem spec_c4_witness :
    pathExists ([] : FileSystem) ["dst"] = false ∧
    (∃ fs2,
      unpack (pack ["r"] [(["r", "a"], [7]), (["b"], [8])]) [] ["dst"] =
        .ok fs2 ∧
      pack ["dst"] fs2 = pack ["r"] [(["r", "a"], [7]), (["b"], [8])]) :=
  ⟨by decide,
   spec_c4 ["r"] ["dst"] [(["r", "a"], [7]), (["b"], [8])] [] (by decide)⟩

/-- C5: unpacking into an already-existing destination fails with the
destination-exists error (no result filesystem is produced, so the existing
contents are untouched); into a non-existent destination it succeeds, keeps
every pre-existing file, and extracts every archive entry beneath the
destination. -/
theorem spec_c5 (archive : Archive) (fs : FileSystem) (dest : FsPath) :
    (pathExists fs dest = true →
      unpack archive fs dest = .error .destinationExists) ∧
    (pathExists fs dest = false →
      unpack archive fs dest =
        .ok (fs ++ archive.map fun e => (dest ++ e.1, e.2)) ∧
      (∀ e ∈ fs, e ∈ fs ++ archive.map fun e => (dest ++ e.1, e.2)) ∧
      (∀ e ∈ archive,
        (dest ++ e.1, e.2) ∈ fs ++ archive.map fun e => (dest ++ e.1, e.2))) := by
  constructor
  · intro h
    simp [unpack, h]
  · intro h
    refine ⟨by simp [unpack, h], ?_, ?_⟩
    · intro e he
      exact List.mem_append_left _ he
    · intro e he
      exact List.mem_append_right _ (List.mem_map_of_mem _ he)

/-- C5 witness: unpacking over the occupied destination "d" fails; unpacking
the same archive at the fresh destination "d" of an empty filesystem places
the entry beneath it. -/
theorem spec_c5_witness :
    unpack [(["a"], [1])] [(["d", "x"], [2])] ["d"] =
      .error .destinationExists ∧
    unpack [(["a"], [1])] [] ["d"] = .ok [(["d", "a"], [1])] := by
  refine ⟨(spec_c5 [(["a"], [1])] [(["d", "x"], [2])] ["d"]).1 (by decide), ?_⟩
  have h := ((spec_c5 [(["a"], [1])] [] ["d"]).2 (by decide)).1
  simpa using h

/-- C6: on the remote-service branch, BigQuery credentials with method
"service-account" fail immediately with the configuration error (whose message
instructs using "service-account-json"), and the trace holds nothing else: no
layer is appended and no connection is provisioned. -/
theorem spec_c6 (inp : DispatcherInput)
    (henv : inp.envType = .isolateServer ∨
            inp.envType = .koldstartDummyServer)
    (hcred : inp.credentialsTypeName = "BigQueryCredentials")
    (hmeth : inp.credentialsMethod = "service-account") :
    run_in_environment_with_adapter inp =
      [.raiseConfigError bigQueryServiceAccountMsg] ∧
    Event.create ∉ run_in_environment_with_adapter inp ∧
    ∀ l, Event.appendLayer l ∉ run_in_environment_with_adapter inp := by
  have hrun : run_in_environment_with_adapter inp =
      [.raiseConfigError bigQueryServiceAccountMsg] := by
    simp [run_in_environment_with_adapter, henv, hcred, hmeth]
  refine ⟨hrun, ?_, ?_⟩
  · rw [hrun]
    simp
  · intro l
    rw [hrun]
    simp

/-- C6 witness: the theorem applied to a concrete IsolateServer-typed input
with BigQuery service-account credentials. -/
theorem spec_c6_witness :
    run_in_environment_with_adapter
      { envType := .isolateServer
        credentialsTypeName := "BigQueryCredentials"
        credentialsMethod := "service-account"
        falScriptsPathExists := false
        remoteDeps := []
        packedArchive := [] } =
      [.raiseConfigError bigQueryServiceAccountMsg] :=
  (spec_c6
    { envType := .isolateServer
      credentialsTypeName := "BigQueryCredentials"
      credentialsMethod := "service-account"
      falScriptsPathExists := false
      remoteDeps := []
      packedArchive := [] }
    (Or.inl rfl) rfl rfl).1

theorem flattenConda_dependencies (stack : List Layer) :
    (flattenConda stack).dependencies =
      (stack.map layerCondaDepsSpec).flatten := by
  rw [flattenConda_eq]

theorem flattenVirtualenv_map_congr (stack : List Layer) (u : Layer → Layer)
    (h : ∀ l, (u l).reqList = l.reqList) :
    flattenVirtualenv (stack.map u) = flattenVirtualenv stack := by
  have hu : Layer.reqList ∘ u = Layer.reqList := funext h
  rw [flattenVirtualenv_eq, flattenVirtualenv_eq, virtualenvReqsSpec,
    virtualenvReqsSpec, List.map_map, hu]

theorem flattenConda_map_congr (stack : List Layer) (u : Layer → Layer)
    (h : ∀ l, layerCondaDepsSpec (u l) = layerCondaDepsSpec l) :
    flattenConda (stack.map u) = flattenConda stack := by
  have hu : layerCondaDepsSpec ∘ u = layerCondaDepsSpec := funext h
  rw [flattenConda_eq, flattenConda_eq, List.map_map, hu]

/-- C7: flattening is lossless for each supported target kind — every
requirement of every layer reaches the virtualenv requirement list, and every
package and every requirement of every layer reaches the conda dependency
list (packages as plain entries, requirements inside a nested pip entry). -/
theorem spec_c7 (stack : List Layer) (l : Layer) (hl : l ∈ stack) :
    (∀ r ∈ l.reqList, r ∈ flattenVirtualenv stack) ∧
    (∀ p ∈ l.pkgList,
      CondaDep.pkg p ∈ (flattenConda stack).dependencies) ∧
    (∀ r ∈ l.reqList,
      ∃ rs, CondaDep.pip rs ∈ (flattenConda stack).dependencies ∧ r ∈ rs) := by
  refine ⟨?_, ?_, ?_⟩
  · intro r hr
    rw [flattenVirtualenv_eq, virtualenvReqsSpec]
    exact List.mem_flatten.mpr ⟨l.reqList, List.mem_map_of_mem _ hl, hr⟩
  · intro p hp
    rw [flattenConda_dependencies]
    exact List.mem_flatten.mpr ⟨layerCondaDepsSpec l, List.mem_map_of_mem _ hl,
      List.mem_append_left _ (List.mem_map_of_mem _ hp)⟩
  · intro r hr
    refine ⟨l.reqList, ?_, hr⟩
    rw [flattenConda_dependencies]
    have hne : l.reqList ≠ [] := by
      intro h0
      rw [h0] at hr
      cases hr
    refine List.mem_flatten.mpr
      ⟨layerCondaDepsSpec l, List.mem_map_of_mem _ hl, ?_⟩
    unfold layerCondaDepsSpec
    rw [if_neg hne]
    exact List.mem_append_right _ (List.mem_singleton.mpr rfl)

/-- A concrete layer and one-element stack exercising both losslessness
branches. -/
def c7Layer : Layer :=
  { kind := "conda"
    configuration := some { requirements := some ["sklearn"]
                            packages := some ["numpy"] } }

def c7Stack : List Layer := [c7Layer]

/-- C7 witness: the losslessness theorem applied at the concrete one-layer
stack. -/
theorem spec_c7_witness :
    c7Layer ∈ c7Stack ∧
    "sklearn" ∈ flattenVirtualenv c7Stack ∧
    CondaDep.pkg "numpy" ∈ (flattenConda c7Stack).dependencies ∧
    ∃ rs, CondaDep.pip rs ∈ (flattenConda c7Stack).dependencies ∧
      "sklearn" ∈ rs := by
  have h := spec_c7 c7Stack c7Layer (List.mem_singleton.mpr rfl)
  exact ⟨List.mem_singleton.mpr rfl, h.1 "sklearn" (by decide),
    h.2.1 "numpy" (by decide), h.2.2 "sklearn" (by decide)⟩

/-- Rewrite a layer's kind tag, keeping its configuration: used to state that
flattening never inspects the layers' own kind tags. -/
def setKind (f : Layer → String) (l : Layer) : Layer :=
  { l with kind := f l }

/-- Replace a layer's package declaration, keeping its requirement
declaration: used to state that the virtualenv branch ignores packages. -/
def setPackages (g : Layer → Option (List String)) (l : Layer) : Layer :=
  { l with configuration := some { requirements := l.config.requirements, packages := g l } }

/-- C8: the merge rule is selected solely by the handle's target environment
type and never inspects a layer's own kind tag — rewriting every kind tag
arbitrarily leaves the flattening unchanged, under a virtualenv target the
layers' package entries are ignored, and under both supported targets no
error is raised whatever the layers hold. -/
theorem spec_c8 :
    (∀ (stack : List Layer) (f : Layer → String) (target : String),
      flatten target (stack.map (setKind f)) = flatten target stack) ∧
    (∀ (stack : List Layer) (g : Layer → Option (List String)),
      flattenVirtualenv (stack.map (setPackages g)) =
        flattenVirtualenv stack) ∧
    (∀ stack : List Layer, ∃ s, flatten "virtualenv" stack = .ok s) ∧
    (∀ stack : List Layer, ∃ s, flatten "conda" stack = .ok s) := by
  refine ⟨?_, ?_, ?_, ?_⟩
  · intro stack f target
    have h1 := flattenVirtualenv_map_congr stack (setKind f) (fun l => rfl)
    have h2 := flattenConda_map_congr stack (setKind f) (fun l => rfl)
    simp [flatten, h1, h2]
  · intro stack g
    exact flattenVirtualenv_map_congr stack (setPackages g) (fun l => rfl)
  · intro stack
    exact ⟨_, rfl⟩
  · intro stack
    exact ⟨_, rfl⟩

/-- Replace an empty-but-present optional list by an absent one. -/
def normalizeOpt : Option (List String) → Option (List String)
  | some [] => none
  | o => o

/-- Normalise a layer by dropping empty-but-present requirement and package
keys; two stacks differing only in empty-present versus absent keys have the
same normalisation. -/
def normalizeLayer (l : Layer) : Layer :=
  { l with configuration := l.configuration.map fun c =>
      { requirements := normalizeOpt c.requirements, packages := normalizeOpt c.packages } }

theorem normalizeOpt_getD (o : Option (List String)) :
    (normalizeOpt o).getD [] = o.getD [] := by
  match o with
  | none => rfl
  | some [] => rfl
  | some (x :: xs) => rfl

theorem reqList_normalizeLayer (l : Layer) :
    (normalizeLayer l).reqList = l.reqList := by
  unfold normalizeLayer Layer.reqList Layer.config
  cases l.configuration with
  | none => rfl
  | some c => simp [normalizeOpt_getD]

theorem pkgList_normalizeLayer (l : Layer) :
    (normalizeLayer l).pkgList = l.pkgList := by
  unfold normalizeLayer Layer.pkgList Layer.config
  cases l.configuration with
  | none => rfl
  | some c => simp [normalizeOpt_getD]

/-- C9: a layer carrying an empty-but-present requirements (or packages) key
contributes exactly what a layer with the key absent contributes — flattening
is invariant under dropping empty-but-present keys, and in particular a conda
layer with an empty pip-requirement list produces no nested pip entry. -/
theorem spec_c9 :
    (∀ (target : String) (stack : List Layer),
      flatten target (stack.map normalizeLayer) = flatten target stack) ∧
    flattenConda
      [{ kind := "conda", configuration := some { requirements := some [] } }] =
      condaSkeleton ∧
    flattenVirtualenv
      [{ kind := "virtualenv",
         configuration := some { requirements := some [] } }] =
      flattenVirtualenv [{ kind := "virtualenv" }] := by
  refine ⟨?_, rfl, rfl⟩
  intro target stack
  have h1 := flattenVirtualenv_map_congr stack normalizeLayer
    reqList_normalizeLayer
  have h2 := flattenConda_map_congr stack normalizeLayer (fun l => by
    unfold layerCondaDepsSpec
    rw [reqList_normalizeLayer, pkgList_normalizeLayer])
  simp [flatten, h1, h2]

/-- C10: any environment handle that is not IsolateServer and not
KoldstartDummyServer takes the local isolated-process branch — no
credential-method validation happens (whatever the credentials, including
BigQuery with method "service-account"), and the execution request is
submitted with no archive. -/
theorem spec_c10 (inp : DispatcherInput)
    (h1 : inp.envType ≠ .isolateServer)
    (h2 : inp.envType ≠ .koldstartDummyServer) :
    run_in_environment_with_adapter inp =
      [.create, .openConnection, .submit none] ∧
    (∀ msg, Event.raiseConfigError msg ∉ run_in_environment_with_adapter inp) ∧
    Event.submit none ∈ run_in_environment_with_adapter inp := by
  have hrun : run_in_environment_with_adapter inp =
      [.create, .openConnection, .submit none] := by
    simp [run_in_environment_with_adapter, h1, h2]
  refine ⟨hrun, ?_, ?_⟩
  · intro msg
    rw [hrun]
    simp
  · rw [hrun]
    simp

/-- C10 witness: a local-branch handle carrying the otherwise-rejected
BigQuery service-account credentials proceeds and submits with no archive. -/
theorem spec_c10_witness :
    run_in_environment_with_adapter
      { envType := .other
        credentialsTypeName := "BigQueryCredentials"
        credentialsMethod := "service-account"
        falScriptsPathExists := true
        remoteDeps := ["dbt-core"]
        packedArchive := [] } =
      [.create, .openConnection, .submit none] :=
  (spec_c10
    { envType := .other
      credentialsTypeName := "BigQueryCredentials"
      credentialsMethod := "service-account"
      falScriptsPathExists := true
      remoteDeps := ["dbt-core"]
      packedArchive := [] }
    (by decide) (by decide)).1

end DbtFal
